import Mathlib

/-!
Verification of `src/host/posix/cli_daemon.cpp` (ot-br-posix).

The daemon exposes a single Unix-domain-socket control endpoint.  We embed
the component shallowly: the three descriptor fields of `CliDaemon` become a
record of integers (`-1` = invalid, as in the source), each OS call's outcome
is supplied by an explicit environment record, and every function returns its
result together with the ordered list of externally visible events (syscalls,
descriptor assignments, log lines) it performed.  `VerifyOrDie` (process
abort) is modelled by a `died` flag or an `Option` result.
-/

namespace OtbrCli

/-- The `otbrError` values the CLI daemon uses. -/
inductive OtbrError where
  | NONE
  | ERRNO
  | INVALID_STATE
  | INVALID_ARGS
  deriving DecidableEq, Repr

/-- `kDefaultNetIfName` — fallback interface name for an empty argument. -/
def kDefaultNetIfName : String := "wpan0"

/-- `kSocketBaseName`. -/
def kSocketBaseName : String := "/run/openthread-"

/-- `kSocketSuffix`. -/
def kSocketSuffix : String := ".sock"

/-- `kSocketLockSuffix`. -/
def kSocketLockSuffix : String := ".lock"

/-- `sizeof(sockaddr_un::sun_path)` on Linux. -/
def sunPathSize : Nat := 108

/-- `kMaxSocketFilenameLength = sizeof(sockaddr_un::sun_path) - 1`. -/
def kMaxSocketFilenameLength : Nat := sunPathSize - 1

/-- `CliDaemon::GetSocketFilename`: derives `<base><name><suffix>` (with the
default name substituted for an empty one) and `VerifyOrDie`s when the result
exceeds `kMaxSocketFilenameLength` bytes (`std::string::size` counts bytes).
`none` models the process abort. -/
def GetSocketFilename (aNetIfName : String) (aSuffix : String) : Option String :=
  let netIfName := if aNetIfName.isEmpty then kDefaultNetIfName else aNetIfName
  let fileName := kSocketBaseName ++ netIfName ++ aSuffix
  if fileName.utf8ByteSize ≤ kMaxSocketFilenameLength then some fileName else none

/-- The externally visible events a `CliDaemon` operation performs, in
program order: syscalls, the adoption of a descriptor into
`mSessionSocket`, the call into `Dependencies::InputCommandLine`, and log
lines. -/
inductive Event where
  | socket
  | openLock (path : String)
  | flock
  | unlink (path : String)
  | sockBind (path : String)
  | sockListen
  | accept
  | fcntlGetFd
  | fcntlSetFd
  | close (fd : Int)
  | readSys
  | adopt (fd : Int)
  | input (bytes : List Nat) (res : OtbrError)
  | logInfo
  | logWarning
  deriving DecidableEq, Repr

/-- The descriptor fields of `CliDaemon` (`-1` = invalid, as in the source;
`mDeps` is left implicit: the consumer's verdict comes from the
environment). -/
structure CliDaemonState where
  mListenSocket : Int
  mDaemonLock : Int
  mSessionSocket : Int
  deriving DecidableEq, Repr

/-- The state the constructor `CliDaemon::CliDaemon` establishes. -/
def initialState : CliDaemonState :=
  { mListenSocket := -1, mDaemonLock := -1, mSessionSocket := -1 }

/-- Outcomes of the OS calls `CreateListenSocket`/`Init` can make:
`socketFd`/`openFd` are the returned descriptors (or `-1`), the `*Result`
fields are the syscalls' return values, the `*Errno` fields the value
`errno` holds after a failure of that call. -/
structure CreateEnv where
  socketFd : Int
  socketErrno : Nat
  openFd : Int
  openErrno : Nat
  flockResult : Int
  flockErrno : Nat
  bindResult : Int
  bindErrno : Nat
  listenResult : Int
  listenErrno : Nat
  deriving DecidableEq, Repr

/-- A call's result: the fields at return (or at the abort), the returned
`otbrError`, the value of `errno` when the returned error is `ERRNO`
(0 otherwise), whether `VerifyOrDie` aborted the process, and the event
trace up to that point. -/
structure CreateOut where
  state : CliDaemonState
  error : OtbrError
  errnoVal : Nat
  died : Bool
  trace : List Event
  deriving Repr

/-- `CliDaemon::CreateListenSocket`, line for line: socket() first, then the
lock path (length check may abort), open(lock), flock(LOCK_EX|LOCK_NB), the
socket path (length check may abort), unlink, bind.  Each `VerifyOrExit`
short-circuits to the exit label with `OTBR_ERROR_ERRNO`. -/
def CreateListenSocket (s : CliDaemonState) (aNetIfName : String) (env : CreateEnv) :
    CreateOut :=
  let s1 : CliDaemonState := { s with mListenSocket := env.socketFd }
  if env.socketFd = -1 then
    { state := s1, error := .ERRNO, errnoVal := env.socketErrno, died := false,
      trace := [.socket] }
  else
    match GetSocketFilename aNetIfName kSocketLockSuffix with
    | none =>
        { state := s1, error := .NONE, errnoVal := 0, died := true, trace := [.socket] }
    | some lockfile =>
        let s2 : CliDaemonState := { s1 with mDaemonLock := env.openFd }
        if env.openFd = -1 then
          { state := s2, error := .ERRNO, errnoVal := env.openErrno, died := false,
            trace := [.socket, .openLock lockfile] }
        else if env.flockResult = -1 then
          { state := s2, error := .ERRNO, errnoVal := env.flockErrno, died := false,
            trace := [.socket, .openLock lockfile, .flock] }
        else
          match GetSocketFilename aNetIfName kSocketSuffix with
          | none =>
              { state := s2, error := .NONE, errnoVal := 0, died := true,
                trace := [.socket, .openLock lockfile, .flock] }
          | some socketfile =>
              if env.bindResult = -1 then
                { state := s2, error := .ERRNO, errnoVal := env.bindErrno, died := false,
                  trace := [.socket, .openLock lockfile, .flock, .unlink socketfile,
                            .sockBind socketfile] }
              else
                { state := s2, error := .NONE, errnoVal := 0, died := false,
                  trace := [.socket, .openLock lockfile, .flock, .unlink socketfile,
                            .sockBind socketfile] }

/-- `CliDaemon::Init`: rejects a second initialization up front
(`OTBR_ERROR_INVALID_STATE`, no syscall), otherwise runs
`CreateListenSocket` and then `listen(mListenSocket, 1)`. -/
def Init (s : CliDaemonState) (aNetIfName : String) (env : CreateEnv) : CreateOut :=
  if s.mListenSocket ≠ -1 then
    { state := s, error := .INVALID_STATE, errnoVal := 0, died := false, trace := [] }
  else
    let out := CreateListenSocket s aNetIfName env
    if out.died then out
    else if out.error ≠ .NONE then out
    else if env.listenResult = -1 then
      { state := out.state, error := .ERRNO, errnoVal := env.listenErrno, died := false,
        trace := out.trace ++ [.sockListen] }
    else
      { state := out.state, error := .NONE, errnoVal := 0, died := false,
        trace := out.trace ++ [.sockListen] }

/-- `CliDaemon::Clear`: closes `mSessionSocket` when it is valid and resets
the field; idempotent otherwise. -/
def Clear (s : CliDaemonState) : CliDaemonState × List Event :=
  if s.mSessionSocket ≠ -1 then
    ({ s with mSessionSocket := -1 }, [.close s.mSessionSocket])
  else (s, [])

/-- `CliDaemon::Deinit` is exactly `Clear()`. -/
def Deinit (s : CliDaemonState) : CliDaemonState × List Event := Clear s

/-- Outcomes of the OS calls `InitializeSessionSocket` can make: the fd
`accept` returns (or `-1`), and the return values of the two `fcntl`
calls (the `__linux__` build has no `SO_NOSIGPIPE` branch). -/
structure SessionEnv where
  acceptFd : Int
  fcntlGetResult : Int
  fcntlSetResult : Int
  deriving DecidableEq, Repr

/-- `CliDaemon::InitializeSessionSocket`.  `flag` stays `-1` when `accept`
or either `fcntl` fails, so the exit block then logs a warning and runs
`Clear()` (destroying any prior session); on success the prior session is
cleared first and only then is the new descriptor adopted. -/
def InitializeSessionSocket (s : CliDaemonState) (env : SessionEnv) :
    CliDaemonState × List Event :=
  if env.acceptFd = -1 then
    let c := Clear s
    (c.1, [Event.accept, Event.logWarning] ++ c.2)
  else if env.fcntlGetResult = -1 then
    let c := Clear s
    (c.1, [Event.accept, Event.fcntlGetFd, Event.close env.acceptFd, Event.logWarning] ++ c.2)
  else if env.fcntlSetResult = -1 then
    let c := Clear s
    (c.1, [Event.accept, Event.fcntlGetFd, Event.fcntlSetFd, Event.close env.acceptFd,
           Event.logWarning] ++ c.2)
  else
    let c := Clear s
    ({ c.1 with mSessionSocket := env.acceptFd },
     [Event.accept, Event.fcntlGetFd, Event.fcntlSetFd] ++ c.2
       ++ [Event.adopt env.acceptFd, Event.logInfo])

/-- The readiness results (`mReadFdSet`/`mErrorFdSet`) the external mainloop
hands to `Process`; `FD_ISSET fd set` becomes function application. -/
structure MainloopContext where
  readFds : Int → Bool
  errorFds : Int → Bool

/-- `CliDaemon::UpdateFdSet`: the descriptors the daemon registers (for both
read and error readiness) with the mainloop. -/
def UpdateFdSet (s : CliDaemonState) : List Int :=
  (if s.mListenSocket ≠ -1 then [s.mListenSocket] else [])
    ++ (if s.mSessionSocket ≠ -1 then [s.mSessionSocket] else [])

/-- A readiness context as the mainloop produces it for `s`: only descriptors
the daemon registered via `UpdateFdSet` can be flagged. -/
def ctxWellFormed (ctx : MainloopContext) (s : CliDaemonState) : Prop :=
  ∀ fd : Int, (ctx.readFds fd = true ∨ ctx.errorFds fd = true) → fd ∈ UpdateFdSet s

/-- Outcomes of the OS calls the read branch of `Process` can make:
`readResult` is `read`'s return value and `readBytes` the bytes the kernel
stored into `buffer` (only the first `readResult` are meaningful);
`inputResult` is `Dependencies::InputCommandLine`'s verdict. -/
structure ProcessEnv where
  session : SessionEnv
  readResult : Int
  readBytes : List Nat
  inputResult : OtbrError
  deriving Repr

/-- A `Process` call's result: fields at return (or abort), whether
`VerifyOrDie` aborted, and the event trace. -/
structure ProcOut where
  state : CliDaemonState
  events : List Event
  died : Bool
  deriving Repr

/-- The accept step of `Process`: run `InitializeSessionSocket` exactly when
the listen descriptor is flagged readable. -/
def acceptPhase (s : CliDaemonState) (ctx : MainloopContext) (env : SessionEnv) :
    CliDaemonState × List Event :=
  if ctx.readFds s.mListenSocket then InitializeSessionSocket s env else (s, [])

/-- The session step of `Process`, entered with an active session: an error
flag clears the session; otherwise a readable session is read —
`read = -1` is `VerifyOrDie`, `read = 0` logs and clears, a positive read
hands `buffer[0..received)` to `InputCommandLine` in one call and logs a
warning exactly when the consumer's verdict is not `OTBR_ERROR_NONE`. -/
def sessionPhase (s : CliDaemonState) (ctx : MainloopContext) (env : ProcessEnv) :
    ProcOut :=
  if ctx.errorFds s.mSessionSocket then
    let c := Clear s
    { state := c.1, events := c.2, died := false }
  else if ctx.readFds s.mSessionSocket then
    if env.readResult = -1 then
      { state := s, events := [Event.readSys], died := true }
    else if env.readResult = 0 then
      let c := Clear s
      { state := c.1, events := [Event.readSys, Event.logInfo] ++ c.2, died := false }
    else
      { state := s,
        events := [Event.readSys,
                   Event.input (env.readBytes.take env.readResult.toNat) env.inputResult]
          ++ (if env.inputResult = .NONE then [] else [Event.logWarning]),
        died := false }
  else { state := s, events := [], died := false }

/-- `CliDaemon::Process`: nothing without a listen descriptor; an error flag
on it is `VerifyOrDie`; then the accept step, the `mSessionSocket != -1`
guard, and the session step, in that order. -/
def Process (s : CliDaemonState) (ctx : MainloopContext) (env : ProcessEnv) : ProcOut :=
  if s.mListenSocket = -1 then { state := s, events := [], died := false }
  else if ctx.errorFds s.mListenSocket then { state := s, events := [], died := true }
  else
    let a := acceptPhase s ctx env.session
    if a.1.mSessionSocket = -1 then { state := a.1, events := a.2, died := false }
    else
      let o := sessionPhase a.1 ctx env
      { state := o.state, events := a.2 ++ o.events, died := o.died }

/-- The payload an event hands to `Dependencies::InputCommandLine`, if
any. -/
def inputPayload : Event → Option (List Nat)
  | Event.input bs _ => some bs
  | _ => none

/-- The payloads a trace hands to `Dependencies::InputCommandLine`, in
order. -/
def forwardedInputs (l : List Event) : List (List Nat) :=
  l.filterMap inputPayload

/-- A `Process` call in reading position: the endpoint is initialized, the
listen descriptor is quiet, the session descriptor is flagged readable (and
not erroring), and the pending `read` will return `readResult > 0` bytes,
exactly the ones in `readBytes`. -/
def ReadPos (s : CliDaemonState) (ctx : MainloopContext) (env : ProcessEnv) : Prop :=
  s.mListenSocket ≠ -1 ∧ ctx.errorFds s.mListenSocket = false
    ∧ ctx.readFds s.mListenSocket = false ∧ s.mSessionSocket ≠ -1
    ∧ ctx.errorFds s.mSessionSocket = false ∧ ctx.readFds s.mSessionSocket = true
    ∧ 0 < env.readResult ∧ env.readBytes.length = env.readResult.toNat

/-- One event's effect on the collection of open session descriptors:
`close` removes one, `adopt` turns the accepted descriptor into a session,
everything else leaves the collection alone. -/
def stepSessions (cur : List Int) (e : Event) : List Int :=
  match e with
  | Event.close fd => cur.filter (fun x => x ≠ fd)
  | Event.adopt fd => cur ++ [fd]
  | _ => cur

/-- The open session descriptors after running a trace from `init`. -/
def sessionsAfter (init : List Int) (l : List Event) : List Int :=
  l.foldl stepSessions init

/-- The open session descriptors a state owns. -/
def openSessions (s : CliDaemonState) : List Int :=
  if s.mSessionSocket = -1 then [] else [s.mSessionSocket]

/-- Along every prefix of `l`, run from `init`, at most one session is
open. -/
def AtMostOneAlong (init : List Int) (l : List Event) : Prop :=
  ∀ n : Nat, (sessionsAfter init (l.take n)).length ≤ 1

/-- Two daemon instances side by side: `Init` runs on the second instance
and, being a function of that instance's fields only, leaves the first
instance's fields untouched. -/
def InitSecond (sA sB : CliDaemonState) (aNetIfName : String) (env : CreateEnv) :
    CliDaemonState × CreateOut :=
  (sA, Init sB aNetIfName env)

/-- An environment in which every OS call succeeds (descriptors 3 and 4). -/
def goodEnv : CreateEnv :=
  { socketFd := 3, socketErrno := 0, openFd := 4, openErrno := 0, flockResult := 0,
    flockErrno := 0, bindResult := 0, bindErrno := 0, listenResult := 0, listenErrno := 0 }

/-- An environment in which `flock` fails with `EAGAIN` (11): the advisory
lock is held by another process. -/
def lockBusyEnv : CreateEnv :=
  { socketFd := 3, socketErrno := 0, openFd := 4, openErrno := 0, flockResult := -1,
    flockErrno := 11, bindResult := 0, bindErrno := 0, listenResult := 0, listenErrno := 0 }

/-- An interface name of 87 bytes: the shortest whose derived paths
(16 + 87 + 5 = 108 bytes) exceed `kMaxSocketFilenameLength`. -/
def longName : String := String.mk (List.replicate 87 'a')

/-- A concrete state with listen descriptor 3, lock 4, session 7. -/
def sFull : CliDaemonState := ⟨3, 4, 7⟩

/-- A concrete readiness context flagging descriptor 7 readable only. -/
def ctxRead7 : MainloopContext :=
  { readFds := fun fd => decide (fd = 7), errorFds := fun _ => false }

/-- A concrete readiness context flagging descriptor 7 erroring only. -/
def ctxError7 : MainloopContext :=
  { readFds := fun _ => false, errorFds := fun fd => decide (fd = 7) }

/-- A concrete session environment accepting descriptor 9. -/
def accept9 : SessionEnv := { acceptFd := 9, fcntlGetResult := 1, fcntlSetResult := 0 }

/-- A concrete process environment: a 6-byte read ("state" and a newline),
consumer succeeds. -/
def readState6 : ProcessEnv :=
  { session := accept9, readResult := 6, readBytes := [115, 116, 97, 116, 101, 10],
    inputResult := .NONE }

/-- A state owns at most one open session descriptor. -/
theorem openSessions_length_le (s : CliDaemonState) : (openSessions s).length ≤ 1 := by
  unfold openSessions
  split <;> simp

/-- The empty trace keeps any collection of at most one session. -/
theorem atMostOne_nil (init : List Int) (h : init.length ≤ 1) : AtMostOneAlong init [] := by
  intro n
  simpa [sessionsAfter] using h

/-- Prefix invariance extends through one leading event. -/
theorem atMostOne_cons (init : List Int) (e : Event) (l : List Event)
    (h0 : init.length ≤ 1) (h : AtMostOneAlong (stepSessions init e) l) :
    AtMostOneAlong init (e :: l) := by
  intro n
  cases n with
  | zero => simpa [sessionsAfter] using h0
  | succ m => simpa [sessionsAfter] using h m

/-- Only `adopt` can grow the collection of open sessions. -/
theorem stepSessions_length_le (cur : List Int) (e : Event)
    (h : ∀ fd : Int, e ≠ Event.adopt fd) : (stepSessions cur e).length ≤ cur.length := by
  cases e <;> try exact le_rfl
  case close fd => exact List.length_filter_le _ _
  case adopt fd => exact absurd rfl (h fd)

/-- A trace without `adopt` keeps at most one session along every prefix. -/
theorem atMostOne_no_adopt (init : List Int) (l : List Event)
    (hinit : init.length ≤ 1) (h : ∀ fd : Int, Event.adopt fd ∉ l) :
    AtMostOneAlong init l := by
  induction l generalizing init with
  | nil => exact atMostOne_nil init hinit
  | cons e rest ih =>
      refine atMostOne_cons init e rest hinit (ih _ ?_ ?_)
      · refine le_trans (stepSessions_length_le init e ?_) hinit
        intro fd he
        exact h fd (by rw [he]; exact List.mem_cons_self _ _)
      · intro fd hm
        exact h fd (List.mem_cons_of_mem _ hm)

/-- Running a concatenated trace runs the pieces in order. -/
theorem sessionsAfter_append (init : List Int) (l1 l2 : List Event) :
    sessionsAfter init (l1 ++ l2) = sessionsAfter (sessionsAfter init l1) l2 := by
  simp [sessionsAfter, List.foldl_append]

/-- The collection a full trace leaves behind. -/
theorem atMostOne_final (init : List Int) (l : List Event) (h : AtMostOneAlong init l) :
    (sessionsAfter init l).length ≤ 1 := by
  have hl := h l.length
  rwa [List.take_length] at hl

/-- Prefix invariance composes across concatenation. -/
theorem atMostOne_append (init : List Int) (l1 l2 : List Event)
    (h1 : AtMostOneAlong init l1) (h2 : AtMostOneAlong (sessionsAfter init l1) l2) :
    AtMostOneAlong init (l1 ++ l2) := by
  intro n
  rcases le_or_lt n l1.length with hn | hn
  · rw [List.take_append_of_le_length hn]
    exact h1 n
  · rw [List.take_append_eq_append_take, sessionsAfter_append,
        List.take_of_length_le (le_of_lt hn)]
    exact h2 (n - l1.length)

/-- The session step never adopts a descriptor. -/
theorem sessionPhase_no_adopt (s : CliDaemonState) (ctx : MainloopContext)
    (env : ProcessEnv) (fd : Int) : Event.adopt fd ∉ (sessionPhase s ctx env).events := by
  by_cases h5 : s.mSessionSocket = -1 <;>
  by_cases h6 : env.inputResult = OtbrError.NONE <;>
    simp only [sessionPhase, Clear, h5, h6] <;>
    split_ifs <;> simp

/-- `InitializeSessionSocket` never performs a read. -/
theorem initializeSession_no_readSys (s : CliDaemonState) (env : SessionEnv) :
    Event.readSys ∉ (InitializeSessionSocket s env).2 := by
  by_cases h5 : s.mSessionSocket = -1 <;>
    simp only [InitializeSessionSocket, Clear, h5] <;>
    split_ifs <;> simp

/-- `InitializeSessionSocket` never calls the command consumer. -/
theorem initializeSession_no_input (s : CliDaemonState) (env : SessionEnv)
    (bs : List Nat) (r : OtbrError) :
    Event.input bs r ∉ (InitializeSessionSocket s env).2 := by
  by_cases h5 : s.mSessionSocket = -1 <;>
    simp only [InitializeSessionSocket, Clear, h5] <;>
    split_ifs <;> simp

/-- The session step never accepts. -/
theorem sessionPhase_no_accept (s : CliDaemonState) (ctx : MainloopContext)
    (env : ProcessEnv) : Event.accept ∉ (sessionPhase s ctx env).events := by
  by_cases h5 : s.mSessionSocket = -1 <;>
  by_cases h6 : env.inputResult = OtbrError.NONE <;>
    simp only [sessionPhase, Clear, h5, h6] <;>
    split_ifs <;> simp

/-- Along every prefix of an `InitializeSessionSocket` call, at most one
session descriptor is open: in every failure branch nothing is adopted, and
in the success branch the prior session's `close` stands before the
`adopt`. -/
theorem atMostOne_initializeSession (s : CliDaemonState) (env : SessionEnv) :
    AtMostOneAlong (openSessions s) (InitializeSessionSocket s env).2 := by
  have hlen : (openSessions s).length ≤ 1 := openSessions_length_le s
  by_cases hAcc : env.acceptFd = -1
  · refine atMostOne_no_adopt _ _ hlen ?_
    intro fd
    by_cases hs : s.mSessionSocket = -1 <;>
      simp [InitializeSessionSocket, Clear, hAcc, hs]
  by_cases hGet : env.fcntlGetResult = -1
  · refine atMostOne_no_adopt _ _ hlen ?_
    intro fd
    by_cases hs : s.mSessionSocket = -1 <;>
      simp [InitializeSessionSocket, Clear, hAcc, hGet, hs]
  by_cases hSet : env.fcntlSetResult = -1
  · refine atMostOne_no_adopt _ _ hlen ?_
    intro fd
    by_cases hs : s.mSessionSocket = -1 <;>
      simp [InitializeSessionSocket, Clear, hAcc, hGet, hSet, hs]
  by_cases hs : s.mSessionSocket = -1
  · have ht : (InitializeSessionSocket s env).2
        = [Event.accept, Event.fcntlGetFd, Event.fcntlSetFd,
           Event.adopt env.acceptFd, Event.logInfo] := by
      simp [InitializeSessionSocket, Clear, hAcc, hGet, hSet, hs]
    have hi : openSessions s = [] := by simp [openSessions, hs]
    rw [ht, hi]
    refine atMostOne_cons _ _ _ (by simp) ?_
    refine atMostOne_cons _ _ _ (by simp [stepSessions]) ?_
    refine atMostOne_cons _ _ _ (by simp [stepSessions]) ?_
    refine atMostOne_cons _ _ _ (by simp [stepSessions]) ?_
    refine atMostOne_cons _ _ _ (by simp [stepSessions]) ?_
    exact atMostOne_nil _ (by simp [stepSessions])
  · have ht : (InitializeSessionSocket s env).2
        = [Event.accept, Event.fcntlGetFd, Event.fcntlSetFd,
           Event.close s.mSessionSocket, Event.adopt env.acceptFd, Event.logInfo] := by
      simp [InitializeSessionSocket, Clear, hAcc, hGet, hSet, hs]
    have hi : openSessions s = [s.mSessionSocket] := by simp [openSessions, hs]
    rw [ht, hi]
    refine atMostOne_cons _ _ _ (by simp) ?_
    refine atMostOne_cons _ _ _ (by simp [stepSessions]) ?_
    refine atMostOne_cons _ _ _ (by simp [stepSessions]) ?_
    refine atMostOne_cons _ _ _ (by simp [stepSessions]) ?_
    refine atMostOne_cons _ _ _ (by simp [stepSessions]) ?_
    refine atMostOne_cons _ _ _ (by simp [stepSessions]) ?_
    exact atMostOne_nil _ (by simp [stepSessions])

/-- Along every prefix of the accept step, at most one session is open. -/
theorem atMostOne_acceptPhase (s : CliDaemonState) (ctx : MainloopContext)
    (env : SessionEnv) : AtMostOneAlong (openSessions s) (acceptPhase s ctx env).2 := by
  unfold acceptPhase
  split
  · exact atMostOne_initializeSession s env
  · exact atMostOne_nil _ (openSessions_length_le s)

/-- Along every prefix of a full `Process` call, at most one session is
open. -/
theorem atMostOne_process (s : CliDaemonState) (ctx : MainloopContext)
    (env : ProcessEnv) : AtMostOneAlong (openSessions s) (Process s ctx env).events := by
  unfold Process
  split
  · exact atMostOne_nil _ (openSessions_length_le s)
  split
  · exact atMostOne_nil _ (openSessions_length_le s)
  dsimp only
  split
  · exact atMostOne_acceptPhase s ctx env.session
  · refine atMostOne_append _ _ _ (atMostOne_acceptPhase s ctx env.session) ?_
    refine atMostOne_no_adopt _ _ ?_ ?_
    · exact atMostOne_final _ _ (atMostOne_acceptPhase s ctx env.session)
    · intro fd
      exact sessionPhase_no_adopt _ ctx env fd

/-- C2: along every prefix of `InitializeSessionSocket` and of `Process`
at most one session descriptor is open (the count never transiently
reaches 2), and on a fully successful `InitializeSessionSocket` with a
prior session the new descriptor is adopted, with the close of the prior
session standing strictly before the adoption in the event order. -/
theorem claim_C2_single_session (s : CliDaemonState) (ctx : MainloopContext)
    (env : ProcessEnv) :
    AtMostOneAlong (openSessions s) (InitializeSessionSocket s env.session).2
    ∧ AtMostOneAlong (openSessions s) (Process s ctx env).events
    ∧ (s.mSessionSocket ≠ -1 → env.session.acceptFd ≠ -1 →
        env.session.fcntlGetResult ≠ -1 → env.session.fcntlSetResult ≠ -1 →
        Event.adopt env.session.acceptFd ∈ (InitializeSessionSocket s env.session).2
        ∧ ∀ n : Nat,
            Event.adopt env.session.acceptFd
                ∈ ((InitializeSessionSocket s env.session).2.take n) →
              Event.close s.mSessionSocket
                ∈ ((InitializeSessionSocket s env.session).2.take n)) := by
  refine ⟨atMostOne_initializeSession s env.session, atMostOne_process s ctx env, ?_⟩
  intro hs hAcc hGet hSet
  have ht : (InitializeSessionSocket s env.session).2
      = [Event.accept, Event.fcntlGetFd, Event.fcntlSetFd,
         Event.close s.mSessionSocket, Event.adopt env.session.acceptFd,
         Event.logInfo] := by
    simp [InitializeSessionSocket, Clear, hAcc, hGet, hSet, hs]
  rw [ht]
  constructor
  · simp
  · intro n hm
    rcases n with _ | _ | _ | _ | _ | m <;> simp_all [List.take_succ_cons]

/-- C5: calling `Init` while the endpoint is already initialized
(`mListenSocket != -1`) returns `OTBR_ERROR_INVALID_STATE`, performs no
syscall (empty trace), does not abort, and leaves every field of the
endpoint unchanged. -/
theorem claim_C5_reinit_rejected (s : CliDaemonState) (aNetIfName : String)
    (env : CreateEnv) (h : s.mListenSocket ≠ -1) :
    Init s aNetIfName env =
      { state := s, error := .INVALID_STATE, errnoVal := 0, died := false, trace := [] } := by
  simp [Init, h]

/-- C5 witness: a concrete initialized endpoint rejects a second `Init`. -/
theorem claim_C5_witness :
    Init ⟨3, 4, -1⟩ "wpan0" goodEnv =
      { state := ⟨3, 4, -1⟩, error := .INVALID_STATE, errnoVal := 0, died := false,
        trace := [] } :=
  claim_C5_reinit_rejected ⟨3, 4, -1⟩ "wpan0" goodEnv (by decide)

/-- C8: when the non-blocking exclusive `flock` fails (the lock is held by
another instance), `Init` reports `OTBR_ERROR_ERRNO` with `errno` as the
failed `flock` left it — an error distinct from the invalid-state error of
re-initialization — after actually attempting the lock, and the first
instance's fields are untouched. -/
theorem claim_C8_lock_contention (sA s : CliDaemonState) (aNetIfName : String)
    (env : CreateEnv)
    (hFresh : s.mListenSocket = -1)
    (hSock : env.socketFd ≠ -1)
    (hOpen : env.openFd ≠ -1)
    (hLen : (GetSocketFilename aNetIfName kSocketLockSuffix).isSome)
    (hFlock : env.flockResult = -1) :
    (Init s aNetIfName env).error = .ERRNO
    ∧ (Init s aNetIfName env).errnoVal = env.flockErrno
    ∧ (Init s aNetIfName env).died = false
    ∧ Event.flock ∈ (Init s aNetIfName env).trace
    ∧ OtbrError.ERRNO ≠ OtbrError.INVALID_STATE
    ∧ (InitSecond sA s aNetIfName env).1 = sA := by
  obtain ⟨lf, hlf⟩ := Option.isSome_iff_exists.mp hLen
  simp [InitSecond, Init, CreateListenSocket, hFresh, hSock, hOpen, hFlock, hlf]

/-- C8 witness: a concrete second instance hits lock contention (`errno`
11) while a concrete first instance is untouched. -/
theorem claim_C8_witness :
    (Init initialState "wpan0" lockBusyEnv).error = .ERRNO
    ∧ (Init initialState "wpan0" lockBusyEnv).errnoVal = lockBusyEnv.flockErrno
    ∧ (Init initialState "wpan0" lockBusyEnv).died = false
    ∧ Event.flock ∈ (Init initialState "wpan0" lockBusyEnv).trace
    ∧ OtbrError.ERRNO ≠ OtbrError.INVALID_STATE
    ∧ (InitSecond ⟨5, 6, -1⟩ initialState "wpan0" lockBusyEnv).1 = ⟨5, 6, -1⟩ :=
  claim_C8_lock_contention ⟨5, 6, -1⟩ initialState "wpan0" lockBusyEnv
    (by decide) (by decide) (by decide) (by decide) (by decide)

/-- C1 counterexample: for the 87-byte interface name, `CreateListenSocket`
does abort on the path-length check, but the `socket()` syscall stands in
the trace before the abort — a socket is created before the check runs,
refuting "endpoint creation fails before any socket syscall is made". -/
theorem claim_C1_counterexample :
    (CreateListenSocket initialState longName goodEnv).died = true
    ∧ Event.socket ∈ (CreateListenSocket initialState longName goodEnv).trace
    ∧ GetSocketFilename longName kSocketLockSuffix = none := by decide

/-- C1 (amended): for every interface name whose derived lock path exceeds
the platform capacity, `CreateListenSocket` aborts deterministically during
path derivation — after the `socket()` call but before the lock file is
opened, before `unlink` and before `bind` — so no lock file or socket
filesystem entry comes into existence. -/
theorem claim_C1_path_check_before_files (s : CliDaemonState) (aNetIfName : String)
    (env : CreateEnv)
    (hLong : GetSocketFilename aNetIfName kSocketLockSuffix = none)
    (hSock : env.socketFd ≠ -1) :
    (CreateListenSocket s aNetIfName env).died = true
    ∧ (CreateListenSocket s aNetIfName env).trace = [Event.socket]
    ∧ (∀ p : String, Event.openLock p ∉ (CreateListenSocket s aNetIfName env).trace)
    ∧ (∀ p : String, Event.unlink p ∉ (CreateListenSocket s aNetIfName env).trace)
    ∧ (∀ p : String, Event.sockBind p ∉ (CreateListenSocket s aNetIfName env).trace) := by
  simp [CreateListenSocket, hSock, hLong]

/-- C1 witness: the amended statement at the concrete 87-byte name. -/
theorem claim_C1_witness :
    (CreateListenSocket initialState longName goodEnv).died = true
    ∧ (CreateListenSocket initialState longName goodEnv).trace = [Event.socket]
    ∧ (∀ p : String, Event.openLock p ∉ (CreateListenSocket initialState longName goodEnv).trace)
    ∧ (∀ p : String, Event.unlink p ∉ (CreateListenSocket initialState longName goodEnv).trace)
    ∧ (∀ p : String, Event.sockBind p ∉ (CreateListenSocket initialState longName goodEnv).trace) :=
  claim_C1_path_check_before_files initialState longName goodEnv (by decide) (by decide)

/-- C3 counterexample: a concrete successful `Init` followed by `Deinit`
leaves the listen descriptor valid, and a subsequent `Init` fails with
`OTBR_ERROR_INVALID_STATE` — refuting "after Deinit the endpoint is again
uninitialized, so a subsequent Init can succeed". -/
theorem claim_C3_counterexample :
    (Init initialState "wpan0" goodEnv).error = .NONE
    ∧ (Init initialState "wpan0" goodEnv).state.mListenSocket ≠ -1
    ∧ (Deinit (Init initialState "wpan0" goodEnv).state).1.mListenSocket ≠ -1
    ∧ (Init (Deinit (Init initialState "wpan0" goodEnv).state).1 "wpan0" goodEnv).error
        = .INVALID_STATE := by decide

/-- C3 (amended): `Init` succeeds at most once until an external reset of
the listen descriptor: `Deinit` closes only the session — the listen and
lock descriptors keep their values, the session descriptor is invalid
afterwards — so after `Deinit` the endpoint is still initialized and a
subsequent `Init` is rejected with `OTBR_ERROR_INVALID_STATE`, with no
syscalls and no state change. -/
theorem claim_C3_deinit_keeps_listen (s : CliDaemonState) (aNetIfName : String)
    (env : CreateEnv) (h : s.mListenSocket ≠ -1) :
    (Deinit s).1.mListenSocket = s.mListenSocket
    ∧ (Deinit s).1.mDaemonLock = s.mDaemonLock
    ∧ (Deinit s).1.mSessionSocket = -1
    ∧ Init (Deinit s).1 aNetIfName env =
        { state := (Deinit s).1, error := .INVALID_STATE, errnoVal := 0, died := false,
          trace := [] } := by
  by_cases hs : s.mSessionSocket = -1 <;>
    simp [Deinit, Clear, Init, h, hs]

/-- C3 witness: the amended statement at a concrete initialized endpoint
with an active session. -/
theorem claim_C3_witness :
    (Deinit ⟨3, 4, 7⟩).1.mListenSocket = (⟨3, 4, 7⟩ : CliDaemonState).mListenSocket
    ∧ (Deinit ⟨3, 4, 7⟩).1.mDaemonLock = (⟨3, 4, 7⟩ : CliDaemonState).mDaemonLock
    ∧ (Deinit ⟨3, 4, 7⟩).1.mSessionSocket = -1
    ∧ Init (Deinit ⟨3, 4, 7⟩).1 "wpan0" goodEnv =
        { state := (Deinit ⟨3, 4, 7⟩).1, error := .INVALID_STATE, errnoVal := 0,
          died := false, trace := [] } :=
  claim_C3_deinit_keeps_listen ⟨3, 4, 7⟩ "wpan0" goodEnv (by decide)

/-- C10: when `accept` itself fails in `InitializeSessionSocket`, the
`flag` variable is still `-1` at the exit label, so the cleanup branch
runs: the existing session is closed and marked absent although no new
connection was obtained, and no descriptor is adopted. -/
theorem claim_C10_failed_accept_clears (s : CliDaemonState) (env : SessionEnv)
    (hOld : s.mSessionSocket ≠ -1) (hAcc : env.acceptFd = -1) :
    InitializeSessionSocket s env =
      ({ s with mSessionSocket := -1 },
       [Event.accept, Event.logWarning, Event.close s.mSessionSocket])
    ∧ (∀ fd : Int, Event.adopt fd ∉ (InitializeSessionSocket s env).2) := by
  simp [InitializeSessionSocket, Clear, hOld, hAcc]

/-- C10 witness: a concrete failed `accept` destroys the concrete active
session 7. -/
theorem claim_C10_witness :
    InitializeSessionSocket ⟨3, 4, 7⟩ ⟨-1, -1, -1⟩ =
      ({ mListenSocket := 3, mDaemonLock := 4, mSessionSocket := -1 },
       [Event.accept, Event.logWarning, Event.close 7])
    ∧ (∀ fd : Int, Event.adopt fd ∉ (InitializeSessionSocket ⟨3, 4, 7⟩ ⟨-1, -1, -1⟩).2) :=
  claim_C10_failed_accept_clears ⟨3, 4, 7⟩ ⟨-1, -1, -1⟩ (by decide) (by decide)

/-- A `Process` call in reading position reads once and forwards exactly
the received bytes in one consumer call, logging a warning exactly when
the consumer's verdict is not `OTBR_ERROR_NONE`; the state is unchanged
and the process does not abort. -/
theorem process_read_eq (s : CliDaemonState) (ctx : MainloopContext)
    (env : ProcessEnv) (h : ReadPos s ctx env) :
    Process s ctx env =
      { state := s,
        events := [Event.readSys, Event.input env.readBytes env.inputResult]
          ++ (if env.inputResult = .NONE then [] else [Event.logWarning]),
        died := false } := by
  obtain ⟨hL, hLe, hLr, hS, hSe, hSr, hPos, hLen⟩ := h
  have hne1 : env.readResult ≠ -1 := by omega
  have hne0 : env.readResult ≠ 0 := by omega
  have htake : env.readBytes.take env.readResult.toNat = env.readBytes := by
    rw [← hLen]
    exact List.take_length env.readBytes
  simp [Process, acceptPhase, sessionPhase, hL, hLe, hLr, hS, hSe, hSr, hne1, hne0, htake]

/-- C4: in reading position, `Process` forwards the exact byte span of the
single read to `InputCommandLine` in one call, byte for byte; a second
`Process` call in reading position forwards its own read's bytes next, so
consecutive reads are delivered in order with no buffering, duplication,
drop or reordering; a non-success consumer verdict is logged only and the
session (indeed the whole state) is unchanged. -/
theorem claim_C4_forward_exact (s : CliDaemonState) (ctx : MainloopContext)
    (env : ProcessEnv) (h : ReadPos s ctx env) :
    Process s ctx env =
      { state := s,
        events := [Event.readSys, Event.input env.readBytes env.inputResult]
          ++ (if env.inputResult = .NONE then [] else [Event.logWarning]),
        died := false }
    ∧ forwardedInputs (Process s ctx env).events = [env.readBytes]
    ∧ (env.inputResult ≠ .NONE →
        Event.logWarning ∈ (Process s ctx env).events
        ∧ (Process s ctx env).state = s)
    ∧ (∀ ctx2 : MainloopContext, ∀ env2 : ProcessEnv, ReadPos s ctx2 env2 →
        forwardedInputs ((Process s ctx env).events
            ++ (Process (Process s ctx env).state ctx2 env2).events)
          = [env.readBytes, env2.readBytes]) := by
  have hp := process_read_eq s ctx env h
  refine ⟨hp, ?_, ?_, ?_⟩
  · rw [hp]
    by_cases hi : env.inputResult = OtbrError.NONE <;>
      simp [forwardedInputs, inputPayload, hi]
  · intro hi
    rw [hp]
    simp [hi]
  · intro ctx2 env2 h2
    rw [hp]
    have hp2 := process_read_eq s ctx2 env2 h2
    simp only [hp2]
    by_cases hi : env.inputResult = OtbrError.NONE <;>
    by_cases hi2 : env2.inputResult = OtbrError.NONE <;>
      simp [forwardedInputs, inputPayload, hi, hi2]

/-- C4 witness: the concrete 6-byte read is forwarded exactly once, and a
second identical read follows it in order. -/
theorem claim_C4_witness :
    Process sFull ctxRead7 readState6 =
      { state := sFull,
        events := [Event.readSys, Event.input readState6.readBytes readState6.inputResult]
          ++ (if readState6.inputResult = .NONE then [] else [Event.logWarning]),
        died := false }
    ∧ forwardedInputs (Process sFull ctxRead7 readState6).events = [readState6.readBytes]
    ∧ (readState6.inputResult ≠ .NONE →
        Event.logWarning ∈ (Process sFull ctxRead7 readState6).events
        ∧ (Process sFull ctxRead7 readState6).state = sFull)
    ∧ (∀ ctx2 : MainloopContext, ∀ env2 : ProcessEnv, ReadPos sFull ctx2 env2 →
        forwardedInputs ((Process sFull ctxRead7 readState6).events
            ++ (Process (Process sFull ctxRead7 readState6).state ctx2 env2).events)
          = [readState6.readBytes, env2.readBytes]) :=
  claim_C4_forward_exact sFull ctxRead7 readState6
    ⟨by decide, by decide, by decide, by decide, by decide, by decide, by decide, by decide⟩

/-- C6: failures inside `Process` are bifurcated: an error flag on the
listen descriptor aborts the process (`VerifyOrDie`); an error flag on the
session descriptor merely clears the session, with the call returning
normally so the loop continues; a failing `read` syscall on the session
descriptor aborts the process. -/
theorem claim_C6_failure_bifurcation (s : CliDaemonState) (ctx : MainloopContext)
    (env : ProcessEnv) (hL : s.mListenSocket ≠ -1) :
    (ctx.errorFds s.mListenSocket = true →
      Process s ctx env = { state := s, events := [], died := true })
    ∧ (ctx.errorFds s.mListenSocket = false → ctx.readFds s.mListenSocket = false →
        s.mSessionSocket ≠ -1 → ctx.errorFds s.mSessionSocket = true →
        Process s ctx env =
          { state := { s with mSessionSocket := -1 },
            events := [Event.close s.mSessionSocket], died := false })
    ∧ (ctx.errorFds s.mListenSocket = false → ctx.readFds s.mListenSocket = false →
        s.mSessionSocket ≠ -1 → ctx.errorFds s.mSessionSocket = false →
        ctx.readFds s.mSessionSocket = true → env.readResult = -1 →
        (Process s ctx env).died = true) := by
  refine ⟨?_, ?_, ?_⟩
  · intro he
    simp [Process, hL, he]
  · intro he hr hs hse
    simp [Process, acceptPhase, sessionPhase, Clear, hL, he, hr, hs, hse]
  · intro he hr hs hse hsr hread
    simp [Process, acceptPhase, sessionPhase, Clear, hL, he, hr, hs, hse, hsr, hread]

/-- C6 witness: the bifurcation at a concrete endpoint whose session
descriptor 7 is flagged erroring. -/
theorem claim_C6_witness :
    (ctxError7.errorFds sFull.mListenSocket = true →
      Process sFull ctxError7 readState6 = { state := sFull, events := [], died := true })
    ∧ (ctxError7.errorFds sFull.mListenSocket = false →
        ctxError7.readFds sFull.mListenSocket = false →
        sFull.mSessionSocket ≠ -1 → ctxError7.errorFds sFull.mSessionSocket = true →
        Process sFull ctxError7 readState6 =
          { state := { sFull with mSessionSocket := -1 },
            events := [Event.close sFull.mSessionSocket], died := false })
    ∧ (ctxError7.errorFds sFull.mListenSocket = false →
        ctxError7.readFds sFull.mListenSocket = false →
        sFull.mSessionSocket ≠ -1 → ctxError7.errorFds sFull.mSessionSocket = false →
        ctxError7.readFds sFull.mSessionSocket = true → readState6.readResult = -1 →
        (Process sFull ctxError7 readState6).died = true) :=
  claim_C6_failure_bifurcation sFull ctxError7 readState6 (by decide)

/-- C7: a zero-length read (orderly peer close) makes `Process` log, close
the session and return normally — no warning is logged, the process does
not abort — and the listen descriptor is untouched, so a later `Process`
call that finds it readable accepts a fresh connection into the session
slot. -/
theorem claim_C7_eof_clears_session (s : CliDaemonState) (ctx : MainloopContext)
    (env : ProcessEnv)
    (hL : s.mListenSocket ≠ -1)
    (hLe : ctx.errorFds s.mListenSocket = false)
    (hLr : ctx.readFds s.mListenSocket = false)
    (hS : s.mSessionSocket ≠ -1)
    (hSe : ctx.errorFds s.mSessionSocket = false)
    (hSr : ctx.readFds s.mSessionSocket = true)
    (hRead : env.readResult = 0) :
    Process s ctx env =
      { state := { s with mSessionSocket := -1 },
        events := [Event.readSys, Event.logInfo, Event.close s.mSessionSocket],
        died := false }
    ∧ Event.logWarning ∉ (Process s ctx env).events
    ∧ (Process s ctx env).state.mListenSocket = s.mListenSocket
    ∧ (∀ ctx2 : MainloopContext, ∀ env2 : ProcessEnv,
        ctx2.errorFds s.mListenSocket = false →
        ctx2.readFds s.mListenSocket = true →
        env2.session.acceptFd ≠ -1 →
        env2.session.fcntlGetResult ≠ -1 →
        env2.session.fcntlSetResult ≠ -1 →
        ctx2.errorFds env2.session.acceptFd = false →
        ctx2.readFds env2.session.acceptFd = false →
        (Process (Process s ctx env).state ctx2 env2).state.mSessionSocket
            = env2.session.acceptFd
        ∧ (Process (Process s ctx env).state ctx2 env2).died = false) := by
  have hp : Process s ctx env =
      { state := { s with mSessionSocket := -1 },
        events := [Event.readSys, Event.logInfo, Event.close s.mSessionSocket],
        died := false } := by
    simp [Process, acceptPhase, sessionPhase, Clear, hL, hLe, hLr, hS, hSe, hSr, hRead]
  refine ⟨hp, ?_, ?_, ?_⟩
  · rw [hp]
    simp
  · rw [hp]
  · intro ctx2 env2 h1 h2 h3 h4 h5 h6 h7
    rw [hp]
    simp [Process, acceptPhase, InitializeSessionSocket, sessionPhase, Clear,
          hL, h1, h2, h3, h4, h5, h6, h7]

/-- C7 witness: after a concrete EOF on session 7, a `Process` call with
listen descriptor 3 readable adopts the concrete accepted descriptor 9. -/
theorem claim_C7_witness :
    Process sFull ctxRead7 { readState6 with readResult := 0, readBytes := [] } =
      { state := { sFull with mSessionSocket := -1 },
        events := [Event.readSys, Event.logInfo, Event.close sFull.mSessionSocket],
        died := false }
    ∧ Event.logWarning
        ∉ (Process sFull ctxRead7 { readState6 with readResult := 0, readBytes := [] }).events
    ∧ (Process sFull ctxRead7
          { readState6 with readResult := 0, readBytes := [] }).state.mListenSocket
        = sFull.mListenSocket
    ∧ (∀ ctx2 : MainloopContext, ∀ env2 : ProcessEnv,
        ctx2.errorFds sFull.mListenSocket = false →
        ctx2.readFds sFull.mListenSocket = true →
        env2.session.acceptFd ≠ -1 →
        env2.session.fcntlGetResult ≠ -1 →
        env2.session.fcntlSetResult ≠ -1 →
        ctx2.errorFds env2.session.acceptFd = false →
        ctx2.readFds env2.session.acceptFd = false →
        (Process (Process sFull ctxRead7
              { readState6 with readResult := 0, readBytes := [] }).state ctx2 env2).state.mSessionSocket
            = env2.session.acceptFd
        ∧ (Process (Process sFull ctxRead7
              { readState6 with readResult := 0, readBytes := [] }).state ctx2 env2).died = false) :=
  claim_C7_eof_clears_session sFull ctxRead7
    { readState6 with readResult := 0, readBytes := [] }
    (by decide) (by decide) (by decide) (by decide) (by decide) (by decide) (by decide)

/-- The accept step never performs a read. -/
theorem acceptPhase_no_readSys (s : CliDaemonState) (ctx : MainloopContext)
    (env : SessionEnv) : Event.readSys ∉ (acceptPhase s ctx env).2 := by
  unfold acceptPhase
  split
  · exact initializeSession_no_readSys s env
  · simp

/-- The accept step never calls the command consumer. -/
theorem acceptPhase_no_input (s : CliDaemonState) (ctx : MainloopContext)
    (env : SessionEnv) (bs : List Nat) (r : OtbrError) :
    Event.input bs r ∉ (acceptPhase s ctx env).2 := by
  unfold acceptPhase
  split
  · exact initializeSession_no_input s env bs r
  · simp

/-- Only the listen and session descriptors are ever registered. -/
theorem mem_updateFdSet (s : CliDaemonState) (fd : Int) (h : fd ∈ UpdateFdSet s) :
    fd = s.mListenSocket ∨ fd = s.mSessionSocket := by
  by_cases hl : s.mListenSocket = -1 <;> by_cases hs : s.mSessionSocket = -1 <;>
    simp [UpdateFdSet, hl, hs] at h <;> tauto

/-- C9: within one `Process` invocation the steps have a fixed order: with
an invalid listen descriptor nothing at all happens; every `accept` stands
strictly before every `read` in the event order; when no session is active
after the accept step the call stops there; and a connection accepted in
this very iteration — its descriptor fresh, readiness flags coming only
from descriptors registered beforehand — is neither read from nor
forwarded in this iteration. -/
theorem claim_C9_process_order (s : CliDaemonState) (ctx : MainloopContext)
    (env : ProcessEnv) :
    (s.mListenSocket = -1 → Process s ctx env = { state := s, events := [], died := false })
    ∧ (∀ i j : Nat, (Process s ctx env).events[i]? = some Event.accept →
        (Process s ctx env).events[j]? = some Event.readSys → i < j)
    ∧ (s.mListenSocket ≠ -1 → ctx.errorFds s.mListenSocket = false →
        (acceptPhase s ctx env.session).1.mSessionSocket = -1 →
        Process s ctx env =
          { state := (acceptPhase s ctx env.session).1,
            events := (acceptPhase s ctx env.session).2, died := false })
    ∧ (ctx.readFds s.mListenSocket = true → ctxWellFormed ctx s →
        env.session.acceptFd ≠ s.mListenSocket → env.session.acceptFd ≠ s.mSessionSocket →
        env.session.acceptFd ≠ -1 → env.session.fcntlGetResult ≠ -1 →
        env.session.fcntlSetResult ≠ -1 →
        Event.readSys ∉ (Process s ctx env).events
        ∧ ∀ bs : List Nat, ∀ r : OtbrError,
            Event.input bs r ∉ (Process s ctx env).events) := by
  refine ⟨?_, ?_, ?_, ?_⟩
  · intro h1
    simp [Process, h1]
  · intro i j hi hj
    by_cases h1 : s.mListenSocket = -1
    · simp [Process, h1] at hi
    by_cases h2 : ctx.errorFds s.mListenSocket = true
    · simp [Process, h1, h2] at hi
    have h2' : ctx.errorFds s.mListenSocket = false := by simpa using h2
    by_cases h3 : (acceptPhase s ctx env.session).1.mSessionSocket = -1
    · have he : (Process s ctx env).events = (acceptPhase s ctx env.session).2 := by
        simp [Process, h1, h2', h3]
      rw [he] at hj
      exact absurd (List.getElem?_mem hj) (acceptPhase_no_readSys s ctx env.session)
    · have he : (Process s ctx env).events
          = (acceptPhase s ctx env.session).2
            ++ (sessionPhase (acceptPhase s ctx env.session).1 ctx env).events := by
        simp [Process, h1, h2', h3]
      rw [he] at hi hj
      have hi' : i < (acceptPhase s ctx env.session).2.length := by
        by_contra hge
        push_neg at hge
        rw [List.getElem?_append_right hge] at hi
        exact absurd (List.getElem?_mem hi)
          (sessionPhase_no_accept (acceptPhase s ctx env.session).1 ctx env)
      have hj' : (acceptPhase s ctx env.session).2.length ≤ j := by
        by_contra hlt
        push_neg at hlt
        rw [List.getElem?_append_left hlt] at hj
        exact absurd (List.getElem?_mem hj) (acceptPhase_no_readSys s ctx env.session)
      omega
  · intro h1 h2 h3
    simp [Process, h1, h2, h3]
  · intro hr hwf hne1 hne2 hAcc hGet hSet
    by_cases h1 : s.mListenSocket = -1
    · simp [Process, h1]
    by_cases h2 : ctx.errorFds s.mListenSocket = true
    · simp [Process, h1, h2]
    have h2' : ctx.errorFds s.mListenSocket = false := by simpa using h2
    have ha1 : (acceptPhase s ctx env.session).1.mSessionSocket = env.session.acceptFd := by
      simp [acceptPhase, hr, InitializeSessionSocket, Clear, hAcc, hGet, hSet]
    have hef : ctx.errorFds env.session.acceptFd = false := by
      by_contra hc
      have hc' : ctx.errorFds env.session.acceptFd = true := by simpa using hc
      rcases mem_updateFdSet s env.session.acceptFd
          (hwf env.session.acceptFd (Or.inr hc')) with h | h
      · exact hne1 h
      · exact hne2 h
    have hrf : ctx.readFds env.session.acceptFd = false := by
      by_contra hc
      have hc' : ctx.readFds env.session.acceptFd = true := by simpa using hc
      rcases mem_updateFdSet s env.session.acceptFd
          (hwf env.session.acceptFd (Or.inl hc')) with h | h
      · exact hne1 h
      · exact hne2 h
    have hane : (acceptPhase s ctx env.session).1.mSessionSocket ≠ -1 := by
      rw [ha1]
      exact hAcc
    have hsess : (sessionPhase (acceptPhase s ctx env.session).1 ctx env).events = [] := by
      simp [sessionPhase, ha1, hef, hrf]
    have he : (Process s ctx env).events = (acceptPhase s ctx env.session).2 := by
      simp [Process, h1, h2', hane, hsess]
    rw [he]
    exact ⟨acceptPhase_no_readSys s ctx env.session,
           fun bs r => acceptPhase_no_input s ctx env.session bs r⟩

end OtbrCli
